import Mathlib

/-!
Shallow embedding of the IRC transport core (`src/ircsocket.py`) and proofs
of the specification claims about it.

The Python class `IrcSocket` owns a stream socket and a boolean connection
flag.  We model the observable socket state (`_is_connected`, the cached
timeout) explicitly, and the behaviour of the underlying OS socket by
oracles: each underlying `send`/`recv`/`connect`/`shutdown` call consumes a
prescribed outcome.  Every method returns, besides its Python result
(modelled with `Except`), the successor state, the bytes that reached the
wire, and the list of underlying socket operations it performed.
-/

deriving instance DecidableEq for Except

namespace Irc

/-- Errors a method of `IrcSocket` can raise.  The first six are the custom
`SocketError` subclasses defined at the bottom of `ircsocket.py`;
`unicodeDecodeError` and `indexError` are builtin Python errors that can
escape `recv_raw_text` (they are not part of the documented taxonomy). -/
inductive PyErr where
  | socketTimeout
  | socketConnectFailed
  | socketConnectionBroken
  | socketConnectionNotEstablished
  | socketAlreadyConnected
  | unicodeDecodeError
  | indexError
  deriving DecidableEq

/-- The five error kinds of the spec's error taxonomy (section 7):
NotConnected, AlreadyConnected, ConnectFailed, Timeout, ConnectionBroken. -/
def isTaxonomyErr : PyErr → Bool
  | PyErr.socketTimeout => true
  | PyErr.socketConnectFailed => true
  | PyErr.socketConnectionBroken => true
  | PyErr.socketConnectionNotEstablished => true
  | PyErr.socketAlreadyConnected => true
  | PyErr.unicodeDecodeError => false
  | PyErr.indexError => false

/-- Operations performed on the underlying OS socket resource. -/
inductive SockOp where
  | settimeout (t : Nat)
  | connectOp
  | sendOp
  | recvOp
  | shutdownOp
  | closeOp
  deriving DecidableEq

/-- Outcome of one underlying `socket.send` call: a timeout, a socket
error, or acceptance of `n` bytes. -/
inductive SendResult where
  | timeout
  | sockError
  | ok (n : Nat)
  deriving DecidableEq

/-- Outcome of one underlying `socket.recv` call. -/
inductive RecvResult where
  | timeout
  | sockError
  | data (bytes : List Nat)
  deriving DecidableEq

/-- Outcome of the underlying `socket.connect` call, matching the four
except-clauses of `IrcSocket.connect` plus success. -/
inductive ConnectResult where
  | ok
  | herror
  | gaierror
  | timeout
  | sockError
  deriving DecidableEq

/-- Outcome of the underlying `socket.shutdown` call. -/
inductive ShutdownResult where
  | ok
  | sockError
  deriving DecidableEq

/-- Observable events of `IrcSocket.disconnect`, in the order they happen. -/
inductive DiscEvent where
  | setUnconnected
  | shutdownAttempt
  | shutdownWarn
  | closeCall
  deriving DecidableEq

/-! ### Module constants of `ircsocket.py` -/

/-- `LINE_ENDINGS = '\r\n'`. -/
def LINE_ENDINGS : List Char := ['\r', '\n']

/-- `CONNECTION_TIMEOUT = 30`. -/
def CONNECTION_TIMEOUT : Nat := 30

/-- `RECV_TIMEOUT = 180`. -/
def RECV_TIMEOUT : Nat := 180

/-- `SEND_TIMEOUT = 30`. -/
def SEND_TIMEOUT : Nat := 30

/-- `MAX_RECV_BYTES = 4096`. -/
def MAX_RECV_BYTES : Nat := 4096

/-! ### UTF-8 codec (model of Python `str.encode('UTF-8')` / `bytes.decode('UTF-8')`) -/

/-- UTF-8 encoding of a single code point. -/
def utf8EncodeChar (c : Char) : List Nat :=
  let n := c.toNat
  if n < 0x80 then [n]
  else if n < 0x800 then [0xC0 + n / 0x40, 0x80 + n % 0x40]
  else if n < 0x10000 then [0xE0 + n / 0x1000, 0x80 + n / 0x40 % 0x40, 0x80 + n % 0x40]
  else [0xF0 + n / 0x40000, 0x80 + n / 0x1000 % 0x40, 0x80 + n / 0x40 % 0x40, 0x80 + n % 0x40]

/-- UTF-8 encoding of a string (as a list of character code points). -/
def utf8Encode : List Char → List Nat
  | [] => []
  | c :: cs => utf8EncodeChar c ++ utf8Encode cs

/-- Is `b` a UTF-8 continuation byte? -/
def isCont (b : Nat) : Bool := decide (0x80 ≤ b ∧ b < 0xC0)

/-- Strict UTF-8 decoding, `none` on any malformed input (Python raises
`UnicodeDecodeError` there).  Rejects overlong forms, surrogates and
out-of-range code points, as CPython's strict UTF-8 codec does. -/
def utf8Decode : List Nat → Option (List Char)
  | [] => some []
  | b :: rest =>
    if b < 0x80 then
      match utf8Decode rest with
      | some cs => some (Char.ofNat b :: cs)
      | none => none
    else if b < 0xC2 then none
    else if b < 0xE0 then
      match rest with
      | b1 :: rest1 =>
        if isCont b1 then
          match utf8Decode rest1 with
          | some cs => some (Char.ofNat ((b - 0xC0) * 0x40 + (b1 - 0x80)) :: cs)
          | none => none
        else none
      | [] => none
    else if b < 0xF0 then
      match rest with
      | b1 :: b2 :: rest2 =>
        if isCont b1 && isCont b2 then
          let n := (b - 0xE0) * 0x1000 + (b1 - 0x80) * 0x40 + (b2 - 0x80)
          if n < 0x800 then none
          else if 0xD800 ≤ n ∧ n < 0xE000 then none
          else
            match utf8Decode rest2 with
            | some cs => some (Char.ofNat n :: cs)
            | none => none
        else none
      | _ => none
    else if b < 0xF5 then
      match rest with
      | b1 :: b2 :: b3 :: rest3 =>
        if isCont b1 && isCont b2 && isCont b3 then
          let n := (b - 0xF0) * 0x40000 + (b1 - 0x80) * 0x1000 + (b2 - 0x80) * 0x40 + (b3 - 0x80)
          if n < 0x10000 then none
          else if 0x110000 ≤ n then none
          else
            match utf8Decode rest3 with
            | some cs => some (Char.ofNat n :: cs)
            | none => none
        else none
      | _ => none
    else none

/-! ### Python string helpers used by `recv_raw_text` -/

/-- `text.startswith(p)`. -/
def startsWith (p l : List Char) : Bool := decide (l.take p.length = p)

/-- The literal token checked by the liveness-probe auto-reply. -/
def PING : List Char := ['P', 'I', 'N', 'G']

/-- `'PONG '`, the prefix of the auto-reply built by
`'PONG {}'.format(...)`. -/
def PONG_SP : List Char := ['P', 'O', 'N', 'G', ' ']

/-- The whitespace characters recognised by Python 3's no-argument
`str.split()` (CPython's `Py_UNICODE_ISSPACE`): the ASCII runs 09–0D and
1C–1F, the space, NEL (85), NBSP (A0), OGHAM SPACE MARK (1680), the
EN-QUAD..HAIR-SPACE run (2000–200A), LINE/PARAGRAPH SEPARATOR (2028/2029),
NARROW NBSP (202F), MEDIUM MATHEMATICAL SPACE (205F) and IDEOGRAPHIC SPACE
(3000). -/
def isPySpace (c : Char) : Bool :=
  let n := c.toNat
  (0x09 ≤ n && n ≤ 0x0d) || n == 0x20 || (0x1c ≤ n && n ≤ 0x1f)
    || n == 0x85 || n == 0xa0 || n == 0x1680
    || (0x2000 ≤ n && n ≤ 0x200a)
    || n == 0x2028 || n == 0x2029 || n == 0x202f || n == 0x205f || n == 0x3000

/-- Helper for `splitWs`: `acc` holds the current token reversed. -/
def splitWsAux : List Char → List Char → List (List Char)
  | acc, [] => if acc = [] then [] else [acc.reverse]
  | acc, c :: rest =>
    if isPySpace c then
      if acc = [] then splitWsAux [] rest
      else acc.reverse :: splitWsAux [] rest
    else splitWsAux (c :: acc) rest

/-- Python `str.split()` with no argument: split on runs of whitespace,
discarding empty tokens. -/
def splitWs (l : List Char) : List (List Char) := splitWsAux [] l

/-- Python `raw_text.split('\r\n')`: split on every non-overlapping
occurrence of CR LF, left to right, keeping empty pieces. -/
def splitCRLF : List Char → List (List Char)
  | [] => [[]]
  | '\r' :: '\n' :: rest => [] :: splitCRLF rest
  | c :: rest =>
    match splitCRLF rest with
    | [] => [[c]]
    | l :: ls => (c :: l) :: ls

/-- The strip step of `recv_raw_text`:
`if raw_text[-2:] == '\r\n': raw_text = raw_text[:-2]` — remove exactly one
trailing CR LF when present, nothing otherwise. -/
def stripTrailingCRLF (l : List Char) : List Char :=
  if l.drop (l.length - LINE_ENDINGS.length) = LINE_ENDINGS then
    l.take (l.length - LINE_ENDINGS.length)
  else l

/-! ### The `IrcSocket` state and methods -/

/-- The observable state of an `IrcSocket`: the `_is_connected` flag and the
timeout currently installed on the underlying socket (`none` initially,
Python's blocking default). -/
structure IrcSocket where
  _is_connected : Bool
  _timeout : Option Nat
  deriving DecidableEq

/-- `IrcSocket.__init__`: fresh socket, not connected, no timeout set. -/
def initSocket : IrcSocket := ⟨false, none⟩

/-- `is_connected()`. -/
def is_connected (s : IrcSocket) : Bool := s._is_connected

/-- `_set_timeout(new_timeout)`: pushes the timeout to the underlying
socket only when it differs from the currently installed one. -/
def _set_timeout (s : IrcSocket) (new_timeout : Nat) : IrcSocket × List SockOp :=
  if s._timeout ≠ some new_timeout then
    ({ s with _timeout := some new_timeout }, [SockOp.settimeout new_timeout])
  else (s, [])

/-- Result of `connect`. -/
structure ConnOut where
  res : Except PyErr Unit
  sock : IrcSocket
  ops : List SockOp
  deriving DecidableEq

/-- `connect(host, port)`.  `host`/`port` only appear in debug messages;
the outcome of the underlying `socket.connect` is the oracle `o`. -/
def connect (s : IrcSocket) (host : List Char) (port : Nat) (o : ConnectResult) : ConnOut :=
  if s._is_connected = false then
    let s1 := (_set_timeout s CONNECTION_TIMEOUT).1
    let ops1 := (_set_timeout s CONNECTION_TIMEOUT).2
    match o with
      | ConnectResult.herror => ⟨Except.error PyErr.socketConnectFailed, s1, ops1 ++ [SockOp.connectOp]⟩
      | ConnectResult.gaierror => ⟨Except.error PyErr.socketConnectFailed, s1, ops1 ++ [SockOp.connectOp]⟩
      | ConnectResult.timeout => ⟨Except.error PyErr.socketTimeout, s1, ops1 ++ [SockOp.connectOp]⟩
      | ConnectResult.sockError => ⟨Except.error PyErr.socketConnectFailed, s1, ops1 ++ [SockOp.connectOp]⟩
      | ConnectResult.ok => ⟨Except.ok (), { s1 with _is_connected := true }, ops1 ++ [SockOp.connectOp]⟩
  else ⟨Except.error PyErr.socketAlreadyConnected, s, []⟩

/-- Result of `disconnect`. -/
structure DiscOut where
  res : Except PyErr Unit
  sock : IrcSocket
  trace : List DiscEvent
  deriving DecidableEq

/-- `disconnect()`: clears `_is_connected` first, then attempts the
shutdown (a `socket.error` there is swallowed with a warning trace), and the
`finally` block closes the socket on every path.  It never raises. -/
def disconnect (s : IrcSocket) (o : ShutdownResult) : DiscOut :=
  let s1 := { s with _is_connected := false }
  match o with
  | ShutdownResult.ok =>
    ⟨Except.ok (), s1, [DiscEvent.setUnconnected, DiscEvent.shutdownAttempt, DiscEvent.closeCall]⟩
  | ShutdownResult.sockError =>
    ⟨Except.ok (), s1,
      [DiscEvent.setUnconnected, DiscEvent.shutdownAttempt, DiscEvent.shutdownWarn,
        DiscEvent.closeCall]⟩

/-- The `while bytes_sent < msg_len` loop of `send_raw_text`.  Consumes one
oracle entry per underlying `socket.send` call.  Returns the Python result
(`none` when the oracle list runs out before the loop decides), the
connection flag, the final `bytes_sent`, and the number of underlying send
calls made.  An accepted count is capped at the remaining slice length,
since `socket.send` never reports more bytes than it was given. -/
def sendLoop (msg : List Nat) : List SendResult → Nat → Bool →
    Option (Except PyErr Unit) × Bool × Nat × Nat
  | [], b, conn =>
    if b < msg.length then (none, conn, b, 0)
    else (some (Except.ok ()), conn, b, 0)
  | r :: rest, b, conn =>
    if b < msg.length then
      match r with
      | SendResult.timeout => (some (Except.error PyErr.socketTimeout), conn, b, 1)
      | SendResult.sockError => (some (Except.error PyErr.socketConnectionBroken), false, b, 1)
      | SendResult.ok n =>
        if n = 0 then (some (Except.error PyErr.socketConnectionBroken), false, b, 1)
        else
          let p := sendLoop msg rest (b + min n (msg.length - b)) conn
          (p.1, p.2.1, p.2.2.1, p.2.2.2 + 1)
    else (some (Except.ok ()), conn, b, 0)

/-- Result of `send_raw_text`: the Python outcome (`none` when the oracle
is exhausted), the successor state, the bytes that reached the peer, and
the underlying socket operations performed. -/
structure SendOut where
  res : Option (Except PyErr Unit)
  sock : IrcSocket
  wire : List Nat
  ops : List SockOp

/-- `send_raw_text(raw_text)`: branch on `is_connected()`, skip empty
strings, otherwise append `LINE_ENDINGS`, encode as UTF-8, set the send
timeout and run the send loop. -/
def send_raw_text (s : IrcSocket) (raw_text : List Char) (o : List SendResult) : SendOut :=
  if s._is_connected then
    if raw_text = [] then ⟨some (Except.ok ()), s, [], []⟩
    else
      let encoded_msg := utf8Encode (raw_text ++ LINE_ENDINGS)
      let s1 := (_set_timeout s SEND_TIMEOUT).1
      let p := sendLoop encoded_msg o 0 s1._is_connected
      ⟨p.1, { s1 with _is_connected := p.2.1 }, encoded_msg.take p.2.2.1,
        (_set_timeout s SEND_TIMEOUT).2 ++ List.replicate p.2.2.2 SockOp.sendOp⟩
  else ⟨some (Except.error PyErr.socketConnectionNotEstablished), s, [], []⟩

/-- Result of the PING auto-reply loop inside `recv_raw_text`: the outcome
of the loop, the threaded socket state, the wire bytes of each internal
send (one entry per `send_raw_text` call), and the socket operations. -/
structure PingOut where
  res : Except PyErr Unit
  sock : IrcSocket
  sends : List (List Nat)
  ops : List SockOp

/-- The `for line in recvd_lines` loop of `recv_raw_text`: every line whose
content starts with `PING` triggers `send_raw_text('PONG ' + line.split()[1])`.
A line with fewer than two whitespace tokens makes `line.split()[1]` raise
`IndexError` (which none of the except-clauses catch); an error from the
internal send is re-raised unchanged, aborting the loop. -/
def pingLoop : IrcSocket → List (List Char) → List (List SendResult) → Option PingOut
  | s, [], _ => some ⟨Except.ok (), s, [], []⟩
  | s, line :: rest, oracles =>
    if startsWith PING line then
      match splitWs line with
      | _ :: arg :: _ =>
        match oracles with
        | [] => none
        | o :: os =>
          let out := send_raw_text s (PONG_SP ++ arg) o
          match out.res with
          | none => none
          | some (Except.ok _) =>
            match pingLoop out.sock rest os with
            | none => none
            | some p => some ⟨p.res, p.sock, out.wire :: p.sends, out.ops ++ p.ops⟩
          | some (Except.error e) => some ⟨Except.error e, out.sock, [out.wire], out.ops⟩
      | _ => some ⟨Except.error PyErr.indexError, s, [], []⟩
    else pingLoop s rest oracles

/-- Result of `recv_raw_text`: the Python outcome (a list of lines on
success, `none` when an oracle is exhausted), the successor state, the wire
bytes of each internal PONG send, and the socket operations. -/
structure RecvOut where
  res : Option (Except PyErr (List (List Char)))
  sock : IrcSocket
  sends : List (List Nat)
  ops : List SockOp

/-- `recv_raw_text()`: branch on `is_connected()`, set the receive timeout,
perform one underlying `recv` (oracle `ro`), handle timeout / error /
zero-byte read, otherwise decode, strip one trailing CR LF, split on CR LF,
run the PING auto-reply loop, and return the lines. -/
def recv_raw_text (s : IrcSocket) (ro : RecvResult) (po : List (List SendResult)) : RecvOut :=
  if s._is_connected then
    let s1 := (_set_timeout s RECV_TIMEOUT).1
    let ops1 := (_set_timeout s RECV_TIMEOUT).2
    match ro with
    | RecvResult.timeout =>
      ⟨some (Except.error PyErr.socketTimeout), s1, [], ops1 ++ [SockOp.recvOp]⟩
    | RecvResult.sockError =>
      ⟨some (Except.error PyErr.socketConnectionBroken), { s1 with _is_connected := false },
        [], ops1 ++ [SockOp.recvOp]⟩
    | RecvResult.data bytes =>
      if bytes = [] then
        ⟨some (Except.error PyErr.socketConnectionBroken), { s1 with _is_connected := false },
          [], ops1 ++ [SockOp.recvOp]⟩
      else
        match utf8Decode bytes with
        | none => ⟨some (Except.error PyErr.unicodeDecodeError), s1, [], ops1 ++ [SockOp.recvOp]⟩
        | some text =>
          let recvd_lines := splitCRLF (stripTrailingCRLF text)
          match pingLoop s1 recvd_lines po with
          | none => ⟨none, s1, [], ops1 ++ [SockOp.recvOp]⟩
          | some p =>
            match p.res with
            | Except.ok _ =>
              ⟨some (Except.ok recvd_lines), p.sock, p.sends, ops1 ++ [SockOp.recvOp] ++ p.ops⟩
            | Except.error e =>
              ⟨some (Except.error e), p.sock, p.sends, ops1 ++ [SockOp.recvOp] ++ p.ops⟩
  else ⟨some (Except.error PyErr.socketConnectionNotEstablished), s, [], []⟩

/-! ### Drivers and spec-side definitions used to state the claims -/

/-- A sequence of `send_raw_text` calls, each with its own oracle; stops
(`none`) as soon as a call does not return normally.  Collects the wire
bytes of each call in order. -/
def sendAll (s : IrcSocket) : List (List Char × List SendResult) →
    Option (IrcSocket × List (List Nat))
  | [] => some (s, [])
  | (t, o) :: rest =>
    let out := send_raw_text s t o
    match out.res with
    | some (Except.ok _) =>
      match sendAll out.sock rest with
      | some (s2, ws) => some (s2, out.wire :: ws)
      | none => none
    | _ => none

/-- Concatenation of wire chunks. -/
def concatAll : List (List Nat) → List Nat
  | [] => []
  | x :: xs => x ++ concatAll xs

/-- Spec-side: the bytes one `send(text)` call should put on the wire —
nothing for the empty string, otherwise the UTF-8 encoding of the text with
CR LF appended. -/
def wirePayload (t : List Char) : List Nat :=
  if t = [] then [] else utf8Encode (t ++ LINE_ENDINGS)

/-- Does one underlying send outcome accept at least one byte? -/
def isOkPos : SendResult → Bool
  | SendResult.ok n => decide (1 ≤ n)
  | _ => false

/-- An oracle all of whose entries accept at least one byte and that is
long enough to deliver `len` bytes. -/
def acceptingB (o : List SendResult) (len : Nat) : Bool :=
  o.all isOkPos && decide (len ≤ o.length)

/-- Spec-side: the second whitespace token of a line (`line.split()[1]`),
defaulting to the empty token. -/
def secondTok (l : List Char) : List Char := (splitWs l).getD 1 []

/-- Spec-side: the text of the auto-reply for a PING line. -/
def pongText (l : List Char) : List Char := PONG_SP ++ secondTok l

/-- Spec-side: the expected wire bytes of the auto-replies for a line
sequence — exactly one send per PING line, in order. -/
def pongWires : List (List Char) → List (List Nat)
  | [] => []
  | l :: ls =>
    if startsWith PING l then utf8Encode (pongText l ++ LINE_ENDINGS) :: pongWires ls
    else pongWires ls

/-- Does the line carry an argument after `PING` (two whitespace tokens)? -/
def hasArgB (l : List Char) : Bool := decide (2 ≤ (splitWs l).length)

/-- Do the pong oracles fit the line sequence: one accepting, long-enough
oracle per PING line? -/
def oraclesFitB : List (List Char) → List (List SendResult) → Bool
  | [], _ => true
  | l :: ls, os =>
    if startsWith PING l then
      match os with
      | [] => false
      | o :: os1 =>
        acceptingB o (utf8Encode (pongText l ++ LINE_ENDINGS)).length && oraclesFitB ls os1
    else oraclesFitB ls os

/-- A connected socket state, as left by a successful `connect`. -/
def connSock : IrcSocket := ⟨true, some 30⟩

/-- A concrete sequence of send calls (with per-byte accepting oracles),
including an empty-string call in the middle. -/
def c1calls : List (List Char × List SendResult) :=
  [("HI".data, List.replicate 4 (SendResult.ok 1)),
   ([], []),
   ("A".data, List.replicate 3 (SendResult.ok 1))]

/-! ### Helper lemmas -/

theorem set_timeout_conn (s : IrcSocket) (t : Nat) :
    (_set_timeout s t).1._is_connected = s._is_connected := by
  unfold _set_timeout
  split <;> rfl

theorem sendLoop_conn_cases (msg : List Nat) :
    ∀ (o : List SendResult) (b : Nat) (conn : Bool),
      ((sendLoop msg o b conn).1 = some (Except.error PyErr.socketConnectionBroken)
          ∧ (sendLoop msg o b conn).2.1 = false)
        ∨ ((sendLoop msg o b conn).1 ≠ some (Except.error PyErr.socketConnectionBroken)
          ∧ (sendLoop msg o b conn).2.1 = conn) := by
  intro o
  induction o with
  | nil =>
    intro b conn
    right
    unfold sendLoop
    split <;> simp
  | cons r rest ih =>
    intro b conn
    unfold sendLoop
    split
    · cases r with
      | timeout => right; simp
      | sockError => left; simp
      | ok n =>
        by_cases hn : n = 0
        · left; simp [hn]
        · simpa [hn] using ih (b + min n (msg.length - b)) conn
    · right; simp

theorem send_conn_cases (s : IrcSocket) (t : List Char) (o : List SendResult) :
    ((send_raw_text s t o).res = some (Except.error PyErr.socketConnectionBroken)
        ∧ (send_raw_text s t o).sock._is_connected = false)
      ∨ ((send_raw_text s t o).res ≠ some (Except.error PyErr.socketConnectionBroken)
        ∧ (send_raw_text s t o).sock._is_connected = s._is_connected) := by
  unfold send_raw_text
  by_cases hc : s._is_connected
  · by_cases ht : t = []
    · right; simp [hc, ht]
    · rcases sendLoop_conn_cases (utf8Encode (t ++ LINE_ENDINGS)) o 0
        ((_set_timeout s SEND_TIMEOUT).1._is_connected) with h | h
      · left
        simpa [hc, ht] using h
      · right
        constructor
        · simpa [hc, ht] using h.1
        · simpa [hc, ht, set_timeout_conn] using h.2
  · right; simp [hc]

theorem send_broken_conn (s : IrcSocket) (t : List Char) (o : List SendResult)
    (h : (send_raw_text s t o).res = some (Except.error PyErr.socketConnectionBroken)) :
    (send_raw_text s t o).sock._is_connected = false := by
  rcases send_conn_cases s t o with h2 | h2
  · exact h2.2
  · exact absurd h h2.1

theorem send_not_broken_conn (s : IrcSocket) (t : List Char) (o : List SendResult)
    (h : (send_raw_text s t o).res ≠ some (Except.error PyErr.socketConnectionBroken)) :
    (send_raw_text s t o).sock._is_connected = s._is_connected := by
  rcases send_conn_cases s t o with h2 | h2
  · exact absurd h2.1 h
  · exact h2.2

theorem pingLoop_conn_cases :
    ∀ (lines : List (List Char)) (s : IrcSocket) (os : List (List SendResult)) (p : PingOut),
      pingLoop s lines os = some p →
      (p.res = Except.error PyErr.socketConnectionBroken ∧ p.sock._is_connected = false)
        ∨ (p.res ≠ Except.error PyErr.socketConnectionBroken
          ∧ p.sock._is_connected = s._is_connected) := by
  intro lines
  induction lines with
  | nil =>
    intro s os p heq
    simp only [pingLoop, Option.some.injEq] at heq
    right
    rw [← heq]
    simp
  | cons line rest ih =>
    intro s os p heq
    by_cases hst : startsWith PING line
    · simp only [pingLoop, hst, if_true] at heq
      cases hsp : splitWs line with
      | nil =>
        simp only [hsp, Option.some.injEq] at heq
        right; rw [← heq]; simp
      | cons a tl =>
        cases tl with
        | nil =>
          simp only [hsp, Option.some.injEq] at heq
          right; rw [← heq]; simp
        | cons arg tl2 =>
          simp only [hsp] at heq
          cases os with
          | nil => simp at heq
          | cons o os1 =>
            simp only [] at heq
            cases hres : (send_raw_text s (PONG_SP ++ arg) o).res with
            | none => rw [hres] at heq; simp at heq
            | some v =>
              cases v with
              | ok u =>
                rw [hres] at heq
                cases hpl : pingLoop (send_raw_text s (PONG_SP ++ arg) o).sock rest os1 with
                | none => rw [hpl] at heq; simp at heq
                | some q =>
                  rw [hpl] at heq
                  simp only [Option.some.injEq] at heq
                  have hout : (send_raw_text s (PONG_SP ++ arg) o).sock._is_connected
                      = s._is_connected := by
                    apply send_not_broken_conn
                    rw [hres]
                    simp
                  rcases ih _ _ _ hpl with ⟨h1, h2⟩ | ⟨h1, h2⟩
                  · left; rw [← heq]; exact ⟨h1, h2⟩
                  · right; rw [← heq]; exact ⟨h1, by rw [h2, hout]⟩
              | error e =>
                rw [hres] at heq
                simp only [Option.some.injEq] at heq
                by_cases he : e = PyErr.socketConnectionBroken
                · left
                  rw [← heq]
                  refine ⟨by rw [he], ?_⟩
                  apply send_broken_conn
                  rw [hres, he]
                · right
                  rw [← heq]
                  refine ⟨by simpa using he, ?_⟩
                  apply send_not_broken_conn
                  rw [hres]
                  simpa using he
    · simp only [pingLoop, hst, if_false] at heq
      exact ih _ _ _ heq

theorem recv_conn_cases (s : IrcSocket) (ro : RecvResult) (po : List (List SendResult)) :
    ((recv_raw_text s ro po).res = some (Except.error PyErr.socketConnectionBroken)
        ∧ (recv_raw_text s ro po).sock._is_connected = false)
      ∨ ((recv_raw_text s ro po).res ≠ some (Except.error PyErr.socketConnectionBroken)
        ∧ (recv_raw_text s ro po).sock._is_connected = s._is_connected) := by
  by_cases hc : s._is_connected
  · cases ro with
    | timeout => right; unfold recv_raw_text; simp [hc, set_timeout_conn]
    | sockError => left; unfold recv_raw_text; simp [hc]
    | data bytes =>
      by_cases hb : bytes = []
      · left; unfold recv_raw_text; simp [hc, hb]
      · cases hdec : utf8Decode bytes with
        | none => right; unfold recv_raw_text; simp [hc, hb, hdec, set_timeout_conn]
        | some text =>
          cases hpl : pingLoop (_set_timeout s RECV_TIMEOUT).1
              (splitCRLF (stripTrailingCRLF text)) po with
          | none => right; unfold recv_raw_text; simp [hc, hb, hdec, hpl, set_timeout_conn]
          | some p =>
            rcases pingLoop_conn_cases _ _ _ _ hpl with ⟨h1, h2⟩ | ⟨h1, h2⟩
            · left
              unfold recv_raw_text
              simp [hc, hb, hdec, hpl, h1, h2]
            · cases hres : p.res with
              | ok u =>
                right
                unfold recv_raw_text
                simp [hc, hb, hdec, hpl, hres, h2, set_timeout_conn]
              | error e =>
                have he : e ≠ PyErr.socketConnectionBroken := by
                  intro hee
                  rw [hee] at hres
                  exact h1 hres
                right
                unfold recv_raw_text
                simp [hc, hb, hdec, hpl, hres, h2, set_timeout_conn, he]
  · right
    unfold recv_raw_text
    simp [hc]

theorem recv_broken_conn (s : IrcSocket) (ro : RecvResult) (po : List (List SendResult))
    (h : (recv_raw_text s ro po).res = some (Except.error PyErr.socketConnectionBroken)) :
    (recv_raw_text s ro po).sock._is_connected = false := by
  rcases recv_conn_cases s ro po with h2 | h2
  · exact h2.2
  · exact absurd h h2.1

theorem recv_not_broken_conn (s : IrcSocket) (ro : RecvResult) (po : List (List SendResult))
    (h : (recv_raw_text s ro po).res ≠ some (Except.error PyErr.socketConnectionBroken)) :
    (recv_raw_text s ro po).sock._is_connected = s._is_connected := by
  rcases recv_conn_cases s ro po with h2 | h2
  · exact absurd h2.1 h
  · exact h2.2

theorem sendLoop_accepting (msg : List Nat) :
    ∀ (o : List SendResult) (b : Nat) (conn : Bool),
      (∀ r ∈ o, isOkPos r = true) → b ≤ msg.length → msg.length - b ≤ o.length →
      ∃ k, sendLoop msg o b conn = (some (Except.ok ()), conn, msg.length, k) := by
  intro o
  induction o with
  | nil =>
    intro b conn hacc hb hlen
    simp only [List.length_nil] at hlen
    have hbe : b = msg.length := by omega
    refine ⟨0, ?_⟩
    unfold sendLoop
    simp [hbe]
  | cons r rest ih =>
    intro b conn hacc hb hlen
    by_cases hlt : b < msg.length
    · have hr : isOkPos r = true := hacc r (by simp)
      cases r with
      | timeout => simp [isOkPos] at hr
      | sockError => simp [isOkPos] at hr
      | ok n =>
        have hn : 1 ≤ n := by simpa [isOkPos] using hr
        have hmin : 1 ≤ min n (msg.length - b) := by omega
        obtain ⟨k, hk⟩ := ih (b + min n (msg.length - b)) conn
          (fun r2 h2 => hacc r2 (by simp [h2]))
          (by omega)
          (by simp only [List.length_cons] at hlen; omega)
        have hn0 : ¬ n = 0 := by omega
        refine ⟨k + 1, ?_⟩
        unfold sendLoop
        simp [hlt, hn0, hk]
    · have hbe : b = msg.length := by omega
      refine ⟨0, ?_⟩
      unfold sendLoop
      simp [hbe]

theorem send_accepting (s : IrcSocket) (t : List Char) (o : List SendResult)
    (hconn : s._is_connected = true)
    (hacc : acceptingB o (utf8Encode (t ++ LINE_ENDINGS)).length = true) :
    (send_raw_text s t o).res = some (Except.ok ())
      ∧ (send_raw_text s t o).wire = wirePayload t
      ∧ (send_raw_text s t o).sock._is_connected = true := by
  have hsplit := hacc
  unfold acceptingB at hsplit
  rw [Bool.and_eq_true] at hsplit
  have hall : ∀ r ∈ o, isOkPos r = true := List.all_eq_true.mp hsplit.1
  have hlen : (utf8Encode (t ++ LINE_ENDINGS)).length ≤ o.length := of_decide_eq_true hsplit.2
  by_cases ht : t = []
  · subst ht
    unfold send_raw_text
    simp [hconn, wirePayload]
  · obtain ⟨k, hk⟩ := sendLoop_accepting (utf8Encode (t ++ LINE_ENDINGS)) o 0
      ((_set_timeout s SEND_TIMEOUT).1._is_connected) hall (by omega) (by simpa)
    rw [set_timeout_conn s SEND_TIMEOUT, hconn] at hk
    unfold send_raw_text
    simp [hconn, ht, hk, wirePayload, set_timeout_conn, List.take_length]

theorem pingLoop_accepting :
    ∀ (lines : List (List Char)) (s : IrcSocket) (os : List (List SendResult)),
      s._is_connected = true →
      (∀ l ∈ lines, startsWith PING l = true → hasArgB l = true) →
      oraclesFitB lines os = true →
      ∃ p, pingLoop s lines os = some p
        ∧ p.res = Except.ok ()
        ∧ p.sends = pongWires lines
        ∧ p.sock._is_connected = true := by
  intro lines
  induction lines with
  | nil =>
    intro s os hconn hping hfit
    exact ⟨⟨Except.ok (), s, [], []⟩, by simp [pingLoop], rfl, by simp [pongWires], hconn⟩
  | cons line rest ih =>
    intro s os hconn hping hfit
    by_cases hst : startsWith PING line
    · have harg : hasArgB line = true := hping line (by simp) hst
      obtain ⟨a, arg, tl, hsp⟩ : ∃ a arg tl, splitWs line = a :: arg :: tl := by
        have hlen2 : 2 ≤ (splitWs line).length := of_decide_eq_true harg
        match hax : splitWs line with
        | [] => rw [hax] at hlen2; simp at hlen2
        | [a] => rw [hax] at hlen2; simp at hlen2
        | a :: arg :: tl => exact ⟨a, arg, tl, rfl⟩
      cases os with
      | nil => simp [oraclesFitB, hst] at hfit
      | cons o os1 =>
        have hfit2 := hfit
        simp only [oraclesFitB, hst, if_true, Bool.and_eq_true] at hfit2
        have hargeq : secondTok line = arg := by simp [secondTok, hsp]
        have hpt : pongText line = PONG_SP ++ arg := by simp [pongText, hargeq]
        obtain ⟨hres, hwire, hsc⟩ := send_accepting s (PONG_SP ++ arg) o hconn
          (by rw [← hpt]; exact hfit2.1)
        obtain ⟨q, hq, hqres, hqsends, hqconn⟩ := ih (send_raw_text s (PONG_SP ++ arg) o).sock
          os1 hsc (fun l hl hpl => hping l (by simp [hl]) hpl) hfit2.2
        refine ⟨⟨q.res, q.sock, (send_raw_text s (PONG_SP ++ arg) o).wire :: q.sends,
          (send_raw_text s (PONG_SP ++ arg) o).ops ++ q.ops⟩, ?_, by simpa using hqres, ?_,
          by simpa using hqconn⟩
        · simp only [pingLoop, hst, if_true, hsp, hres, hq]
        · have hw2 : (send_raw_text s (PONG_SP ++ arg) o).wire
              = utf8Encode (pongText line ++ LINE_ENDINGS) := by
            rw [hwire, hpt]
            simp [wirePayload, PONG_SP]
          simp [hw2, hqsends, pongWires, hst]
    · simp only [pingLoop, hst, if_false]
      have hfit2 : oraclesFitB rest os = true := by simpa [oraclesFitB, hst] using hfit
      obtain ⟨q, hq, h1, h2, h3⟩ := ih s os hconn (fun l hl hpl => hping l (by simp [hl]) hpl) hfit2
      exact ⟨q, hq, h1, by simp [h2, pongWires, hst], h3⟩

theorem sendAll_accepting :
    ∀ (calls : List (List Char × List SendResult)) (s : IrcSocket),
      s._is_connected = true →
      (∀ c ∈ calls,
        (c.1.isEmpty || acceptingB c.2 (utf8Encode (c.1 ++ LINE_ENDINGS)).length) = true) →
      ∃ s2, sendAll s calls = some (s2, calls.map (fun c => wirePayload c.1))
        ∧ s2._is_connected = true := by
  intro calls
  induction calls with
  | nil =>
    intro s hconn hacc
    exact ⟨s, by simp [sendAll], hconn⟩
  | cons c rest ih =>
    intro s hconn hacc
    obtain ⟨t, o⟩ := c
    by_cases ht : t = []
    · subst ht
      have hout : send_raw_text s [] o = ⟨some (Except.ok ()), s, [], []⟩ := by
        unfold send_raw_text
        simp [hconn]
      obtain ⟨s2, hs2, hc2⟩ := ih s hconn (fun c2 h2 => hacc c2 (by simp [h2]))
      refine ⟨s2, ?_, hc2⟩
      simp only [sendAll, hout, hs2]
      simp [wirePayload]
    · have hacc1 : acceptingB o (utf8Encode (t ++ LINE_ENDINGS)).length = true := by
        have := hacc (t, o) (by simp)
        simpa [List.isEmpty_iff, ht] using this
      obtain ⟨hres, hwire, hsc⟩ := send_accepting s t o hconn hacc1
      obtain ⟨s2, hs2, hc2⟩ := ih (send_raw_text s t o).sock hsc
        (fun c2 h2 => hacc c2 (by simp [h2]))
      refine ⟨s2, ?_, hc2⟩
      simp only [sendAll, hres, hs2, hwire, List.map_cons]

/-! ### Claim theorems -/

/-- Claim C1: for every sequence of `send_raw_text` calls made while the
Transport is connected, when every underlying write accepts at least one
byte, the bytes delivered to the peer are the concatenation, in call order,
of the UTF-8 encoding of each text argument with CR LF appended, and an
empty-string argument contributes zero bytes (no terminator is sent for
it). -/
theorem C1_send_sequence_wire_bytes (s : IrcSocket)
    (calls : List (List Char × List SendResult))
    (hconn : s._is_connected = true)
    (hacc : ∀ c ∈ calls,
      (c.1.isEmpty || acceptingB c.2 (utf8Encode (c.1 ++ LINE_ENDINGS)).length) = true) :
    ∃ s2 ws, sendAll s calls = some (s2, ws)
      ∧ ws = calls.map (fun c => wirePayload c.1)
      ∧ concatAll ws = concatAll (calls.map (fun c => wirePayload c.1))
      ∧ s2._is_connected = true := by
  obtain ⟨s2, hs2, hc2⟩ := sendAll_accepting calls s hconn hacc
  exact ⟨s2, calls.map (fun c => wirePayload c.1), hs2, rfl, rfl, hc2⟩

/-- Witness for C1 at a concrete call sequence containing an empty-string
call. -/
theorem C1_send_sequence_wire_bytes_witness :
    connSock._is_connected = true
    ∧ (∀ c ∈ c1calls,
      (c.1.isEmpty || acceptingB c.2 (utf8Encode (c.1 ++ LINE_ENDINGS)).length) = true)
    ∧ ∃ s2 ws, sendAll connSock c1calls = some (s2, ws)
      ∧ ws = c1calls.map (fun c => wirePayload c.1)
      ∧ concatAll ws = concatAll (c1calls.map (fun c => wirePayload c.1))
      ∧ s2._is_connected = true :=
  ⟨rfl, by decide, C1_send_sequence_wire_bytes connSock c1calls rfl (by decide)⟩

/-- Claim C2: a successful `recv_raw_text` whose underlying read returns a
non-empty byte string produces exactly the UTF-8 decoding of the bytes with
one trailing CR LF stripped when present, split on CR LF; on the raw read
`"LINE1\r\nLINE2\r\n"` it returns `["LINE1", "LINE2"]`. -/
theorem C2_receive_framing :
    (∀ (s : IrcSocket) (bytes : List Nat) (text : List Char)
        (po : List (List SendResult)) (r : List (List Char)),
      s._is_connected = true → bytes ≠ [] → utf8Decode bytes = some text →
      (recv_raw_text s (RecvResult.data bytes) po).res = some (Except.ok r) →
      r = splitCRLF (stripTrailingCRLF text))
    ∧ (recv_raw_text connSock
        (RecvResult.data (utf8Encode ("LINE1" ++ "\r\n" ++ "LINE2" ++ "\r\n").data)) []).res
      = some (Except.ok ["LINE1".data, "LINE2".data]) := by
  constructor
  · intro s bytes text po r hconn hb hdec hres
    cases hpl : pingLoop (_set_timeout s RECV_TIMEOUT).1
        (splitCRLF (stripTrailingCRLF text)) po with
    | none =>
      have hnone : (recv_raw_text s (RecvResult.data bytes) po).res = none := by
        unfold recv_raw_text
        simp [hconn, hb, hdec, hpl]
      rw [hnone] at hres
      cases hres
    | some p =>
      cases hpres : p.res with
      | ok u =>
        have hok : (recv_raw_text s (RecvResult.data bytes) po).res
            = some (Except.ok (splitCRLF (stripTrailingCRLF text))) := by
          unfold recv_raw_text
          simp [hconn, hb, hdec, hpl, hpres]
        rw [hok] at hres
        simp only [Option.some.injEq, Except.ok.injEq] at hres
        exact hres.symm
      | error e =>
        have herr : (recv_raw_text s (RecvResult.data bytes) po).res
            = some (Except.error e) := by
          unfold recv_raw_text
          simp [hconn, hb, hdec, hpl, hpres]
        rw [herr] at hres
        simp at hres
  · decide

/-- Witness for C2's general part at a concrete two-line read. -/
theorem C2_receive_framing_witness :
    connSock._is_connected = true
    ∧ utf8Encode ("A" ++ "\r\n" ++ "B" ++ "\r\n").data ≠ []
    ∧ utf8Decode (utf8Encode ("A" ++ "\r\n" ++ "B" ++ "\r\n").data)
        = some ("A" ++ "\r\n" ++ "B" ++ "\r\n").data
    ∧ (recv_raw_text connSock
        (RecvResult.data (utf8Encode ("A" ++ "\r\n" ++ "B" ++ "\r\n").data)) []).res
        = some (Except.ok ["A".data, "B".data])
    ∧ ["A".data, "B".data]
        = splitCRLF (stripTrailingCRLF ("A" ++ "\r\n" ++ "B" ++ "\r\n").data) :=
  ⟨rfl, by decide, by decide, by decide,
    C2_receive_framing.1 connSock (utf8Encode ("A" ++ "\r\n" ++ "B" ++ "\r\n").data)
      ("A" ++ "\r\n" ++ "B" ++ "\r\n").data [] ["A".data, "B".data]
      rfl (by decide) (by decide) (by decide)⟩

/-- Claim C3: every line produced by `recv_raw_text` that begins with
`PING` and carries an argument triggers exactly one internal send of
`PONG ` followed by the first whitespace-delimited argument, before the
line sequence is returned; a failure of this internal send propagates
unchanged; on the raw read `"PING :server123\r\n"` the call returns the
single line `"PING :server123"` and sends exactly the bytes of
`"PONG :server123\r\n"`. -/
theorem C3_ping_autoreply :
    ((recv_raw_text connSock (RecvResult.data (utf8Encode ("PING :server123" ++ "\r\n").data))
        [[SendResult.ok 17]]).res = some (Except.ok ["PING :server123".data])
      ∧ (recv_raw_text connSock (RecvResult.data (utf8Encode ("PING :server123" ++ "\r\n").data))
        [[SendResult.ok 17]]).sends = [utf8Encode ("PONG :server123" ++ "\r\n").data])
    ∧ (∀ (s : IrcSocket) (bytes : List Nat) (text : List Char) (po : List (List SendResult)),
      s._is_connected = true → bytes ≠ [] → utf8Decode bytes = some text →
      (∀ l ∈ splitCRLF (stripTrailingCRLF text), startsWith PING l = true → hasArgB l = true) →
      oraclesFitB (splitCRLF (stripTrailingCRLF text)) po = true →
      (recv_raw_text s (RecvResult.data bytes) po).res
        = some (Except.ok (splitCRLF (stripTrailingCRLF text)))
      ∧ (recv_raw_text s (RecvResult.data bytes) po).sends
        = pongWires (splitCRLF (stripTrailingCRLF text)))
    ∧ (∀ (s : IrcSocket) (bytes : List Nat) (text : List Char)
        (po : List (List SendResult)) (p : PingOut) (e : PyErr),
      s._is_connected = true → bytes ≠ [] → utf8Decode bytes = some text →
      pingLoop (_set_timeout s RECV_TIMEOUT).1 (splitCRLF (stripTrailingCRLF text)) po
        = some p →
      p.res = Except.error e →
      (recv_raw_text s (RecvResult.data bytes) po).res = some (Except.error e)) := by
  refine ⟨⟨by decide, by decide⟩, ?_, ?_⟩
  · intro s bytes text po hconn hb hdec hping hfit
    have hc1 : (_set_timeout s RECV_TIMEOUT).1._is_connected = true := by
      rw [set_timeout_conn]
      exact hconn
    obtain ⟨p, hpl, hres, hsends, hsc⟩ := pingLoop_accepting
      (splitCRLF (stripTrailingCRLF text)) (_set_timeout s RECV_TIMEOUT).1 po hc1 hping hfit
    constructor
    · unfold recv_raw_text
      simp [hconn, hb, hdec, hpl, hres]
    · unfold recv_raw_text
      simp [hconn, hb, hdec, hpl, hres, hsends]
  · intro s bytes text po p e hconn hb hdec hpl hres
    unfold recv_raw_text
    simp [hconn, hb, hdec, hpl, hres]

/-- Witness for C3's general part at a concrete PING read with an
accepting per-byte oracle. -/
theorem C3_ping_autoreply_witness :
    connSock._is_connected = true
    ∧ utf8Encode ("PING :x" ++ "\r\n").data ≠ []
    ∧ utf8Decode (utf8Encode ("PING :x" ++ "\r\n").data) = some ("PING :x" ++ "\r\n").data
    ∧ (∀ l ∈ splitCRLF (stripTrailingCRLF ("PING :x" ++ "\r\n").data),
        startsWith PING l = true → hasArgB l = true)
    ∧ oraclesFitB (splitCRLF (stripTrailingCRLF ("PING :x" ++ "\r\n").data))
        [List.replicate 9 (SendResult.ok 1)] = true
    ∧ (recv_raw_text connSock (RecvResult.data (utf8Encode ("PING :x" ++ "\r\n").data))
        [List.replicate 9 (SendResult.ok 1)]).res
        = some (Except.ok (splitCRLF (stripTrailingCRLF ("PING :x" ++ "\r\n").data)))
    ∧ (recv_raw_text connSock (RecvResult.data (utf8Encode ("PING :x" ++ "\r\n").data))
        [List.replicate 9 (SendResult.ok 1)]).sends
        = pongWires (splitCRLF (stripTrailingCRLF ("PING :x" ++ "\r\n").data)) :=
  ⟨rfl, by decide, by decide, by decide, by decide,
    (C3_ping_autoreply.2.1 connSock (utf8Encode ("PING :x" ++ "\r\n").data)
      ("PING :x" ++ "\r\n").data [List.replicate 9 (SendResult.ok 1)]
      rfl (by decide) (by decide) (by decide) (by decide)).1,
    (C3_ping_autoreply.2.1 connSock (utf8Encode ("PING :x" ++ "\r\n").data)
      ("PING :x" ++ "\r\n").data [List.replicate 9 (SendResult.ok 1)]
      rfl (by decide) (by decide) (by decide) (by decide)).2⟩

/-- Claim C4: whenever `send_raw_text` or `recv_raw_text` raises
`SocketConnectionBroken`, the connection flag has been forced to false
before the error is raised, and any subsequent `recv_raw_text` on that
state raises `SocketConnectionNotEstablished`. -/
theorem C4_broken_forces_unconnected :
    (∀ (s : IrcSocket) (t : List Char) (o : List SendResult),
      (send_raw_text s t o).res = some (Except.error PyErr.socketConnectionBroken) →
      (send_raw_text s t o).sock._is_connected = false)
    ∧ (∀ (s : IrcSocket) (ro : RecvResult) (po : List (List SendResult)),
      (recv_raw_text s ro po).res = some (Except.error PyErr.socketConnectionBroken) →
      (recv_raw_text s ro po).sock._is_connected = false)
    ∧ (∀ (s2 : IrcSocket) (ro : RecvResult) (po : List (List SendResult)),
      s2._is_connected = false →
      (recv_raw_text s2 ro po).res
        = some (Except.error PyErr.socketConnectionNotEstablished)) := by
  refine ⟨send_broken_conn, recv_broken_conn, ?_⟩
  intro s2 ro po h
  unfold recv_raw_text
  simp [h]

/-- Witness for C4: a zero-byte write and a zero-byte read both break the
connection, and the next receive reports the missing connection. -/
theorem C4_broken_forces_unconnected_witness :
    (send_raw_text connSock "A".data [SendResult.ok 0]).res
        = some (Except.error PyErr.socketConnectionBroken)
    ∧ (send_raw_text connSock "A".data [SendResult.ok 0]).sock._is_connected = false
    ∧ (recv_raw_text connSock (RecvResult.data []) []).sock._is_connected = false
    ∧ (recv_raw_text (recv_raw_text connSock (RecvResult.data []) []).sock
        RecvResult.timeout []).res
        = some (Except.error PyErr.socketConnectionNotEstablished) :=
  ⟨by decide,
    C4_broken_forces_unconnected.1 connSock "A".data [SendResult.ok 0] (by decide),
    C4_broken_forces_unconnected.2.1 connSock (RecvResult.data []) [] (by decide),
    C4_broken_forces_unconnected.2.2 (recv_raw_text connSock (RecvResult.data []) []).sock
      RecvResult.timeout [] (by decide)⟩

/-- Claim C5: `connect` on an already-connected Transport fails with
`SocketAlreadyConnected` performing zero underlying socket operations, and
`connect` is atomic: every call either ends connected or raises an error
leaving the state unconnected. -/
theorem C5_connect_already_connected_and_atomic :
    (∀ (s : IrcSocket) (host : List Char) (port : Nat) (o : ConnectResult),
      s._is_connected = true →
      connect s host port o = ⟨Except.error PyErr.socketAlreadyConnected, s, []⟩)
    ∧ (∀ (s : IrcSocket) (host : List Char) (port : Nat) (o : ConnectResult),
      (connect s host port o).sock._is_connected = true
        ∨ ((∃ e, (connect s host port o).res = Except.error e)
          ∧ (connect s host port o).sock._is_connected = false)) := by
  constructor
  · intro s host port o h
    unfold connect
    simp [h]
  · intro s host port o
    by_cases h : s._is_connected
    · left
      unfold connect
      simp [h]
    · rw [Bool.not_eq_true] at h
      cases o with
      | ok =>
        left
        unfold connect
        simp [h]
      | herror =>
        right
        refine ⟨⟨PyErr.socketConnectFailed, ?_⟩, ?_⟩ <;>
          · unfold connect
            simp [h, set_timeout_conn]
      | gaierror =>
        right
        refine ⟨⟨PyErr.socketConnectFailed, ?_⟩, ?_⟩ <;>
          · unfold connect
            simp [h, set_timeout_conn]
      | timeout =>
        right
        refine ⟨⟨PyErr.socketTimeout, ?_⟩, ?_⟩ <;>
          · unfold connect
            simp [h, set_timeout_conn]
      | sockError =>
        right
        refine ⟨⟨PyErr.socketConnectFailed, ?_⟩, ?_⟩ <;>
          · unfold connect
            simp [h, set_timeout_conn]

/-- Witness for C5 on a connected socket. -/
theorem C5_connect_already_connected_and_atomic_witness :
    connSock._is_connected = true
    ∧ connect connSock "irc.foo.net".data 6667 ConnectResult.ok
        = ⟨Except.error PyErr.socketAlreadyConnected, connSock, []⟩ :=
  ⟨rfl, C5_connect_already_connected_and_atomic.1 connSock "irc.foo.net".data 6667
    ConnectResult.ok rfl⟩

/-- Claim C6: `send_raw_text` and `recv_raw_text` on an unconnected
Transport fail with `SocketConnectionNotEstablished`, perform no underlying
socket operation, and leave the state unchanged. -/
theorem C6_unconnected_send_recv :
    ∀ s : IrcSocket, s._is_connected = false →
      (∀ (t : List Char) (o : List SendResult), send_raw_text s t o
        = ⟨some (Except.error PyErr.socketConnectionNotEstablished), s, [], []⟩)
      ∧ (∀ (ro : RecvResult) (po : List (List SendResult)), recv_raw_text s ro po
        = ⟨some (Except.error PyErr.socketConnectionNotEstablished), s, [], []⟩) := by
  intro s h
  constructor
  · intro t o
    unfold send_raw_text
    simp [h]
  · intro ro po
    unfold recv_raw_text
    simp [h]

/-- Witness for C6 on a freshly constructed socket. -/
theorem C6_unconnected_send_recv_witness :
    initSocket._is_connected = false
    ∧ send_raw_text initSocket "NICK test".data [SendResult.ok 1]
        = ⟨some (Except.error PyErr.socketConnectionNotEstablished), initSocket, [], []⟩
    ∧ recv_raw_text initSocket RecvResult.timeout []
        = ⟨some (Except.error PyErr.socketConnectionNotEstablished), initSocket, [], []⟩ :=
  ⟨rfl, (C6_unconnected_send_recv initSocket rfl).1 "NICK test".data [SendResult.ok 1],
    (C6_unconnected_send_recv initSocket rfl).2 RecvResult.timeout []⟩

/-- Claim C7 counterexample: the claim says a whitespace-only argument
sends nothing on the wire, but `send_raw_text` only skips the literal empty
string; on the single-space string the connected socket sends three bytes
(the space and the CR LF terminator). -/
theorem C7_counterexample_whitespace_is_sent :
    (send_raw_text connSock [' '] (List.replicate 3 (SendResult.ok 1))).res
        = some (Except.ok ())
    ∧ (send_raw_text connSock [' '] (List.replicate 3 (SendResult.ok 1))).wire = [32, 13, 10]
    ∧ ¬ (send_raw_text connSock [' '] (List.replicate 3 (SendResult.ok 1))).wire = [] := by
  refine ⟨by decide, by decide, by decide⟩

/-- Claim C7 as amended: emptiness is judged by literal comparison with the
empty string (no trimming): the empty string is a complete no-op, while any
non-empty argument — whitespace-only included — is sent with the CR LF
terminator appended. -/
theorem C7_amended_empty_send_noop :
    ∀ (s : IrcSocket) (o : List SendResult), s._is_connected = true →
      (send_raw_text s [] o = ⟨some (Except.ok ()), s, [], []⟩)
      ∧ (∀ t : List Char, t ≠ [] →
        acceptingB o (utf8Encode (t ++ LINE_ENDINGS)).length = true →
        (send_raw_text s t o).wire = utf8Encode (t ++ LINE_ENDINGS)) := by
  intro s o h
  constructor
  · unfold send_raw_text
    simp [h]
  · intro t ht hacc
    have hw := (send_accepting s t o h hacc).2.1
    rw [hw]
    simp [wirePayload, ht]

/-- Witness for the amended C7 at the single-space string. -/
theorem C7_amended_empty_send_noop_witness :
    connSock._is_connected = true
    ∧ ([' '] : List Char) ≠ []
    ∧ acceptingB (List.replicate 3 (SendResult.ok 1))
        (utf8Encode ([' '] ++ LINE_ENDINGS)).length = true
    ∧ send_raw_text connSock [] (List.replicate 3 (SendResult.ok 1))
        = ⟨some (Except.ok ()), connSock, [], []⟩
    ∧ (send_raw_text connSock [' '] (List.replicate 3 (SendResult.ok 1))).wire
        = utf8Encode ([' '] ++ LINE_ENDINGS) :=
  ⟨rfl, by decide, by decide,
    (C7_amended_empty_send_noop connSock (List.replicate 3 (SendResult.ok 1)) rfl).1,
    (C7_amended_empty_send_noop connSock (List.replicate 3 (SendResult.ok 1)) rfl).2
      [' '] (by decide) (by decide)⟩

/-- Claim C8: a timeout never changes connection state — a timed-out read
fails with `SocketTimeout` leaving the socket connected, and whenever a
send or receive reports `SocketTimeout` the connection flag is unchanged. -/
theorem C8_timeout_preserves_connection :
    (∀ (s : IrcSocket) (po : List (List SendResult)), s._is_connected = true →
      (recv_raw_text s RecvResult.timeout po).res = some (Except.error PyErr.socketTimeout)
      ∧ (recv_raw_text s RecvResult.timeout po).sock._is_connected = true)
    ∧ (∀ (s : IrcSocket) (t : List Char) (o : List SendResult),
      (send_raw_text s t o).res = some (Except.error PyErr.socketTimeout) →
      (send_raw_text s t o).sock._is_connected = s._is_connected)
    ∧ (∀ (s : IrcSocket) (ro : RecvResult) (po : List (List SendResult)),
      (recv_raw_text s ro po).res = some (Except.error PyErr.socketTimeout) →
      (recv_raw_text s ro po).sock._is_connected = s._is_connected) := by
  refine ⟨?_, ?_, ?_⟩
  · intro s po h
    constructor
    · unfold recv_raw_text
      simp [h]
    · unfold recv_raw_text
      simp [h, set_timeout_conn]
  · intro s t o h
    apply send_not_broken_conn
    rw [h]
    simp
  · intro s ro po h
    apply recv_not_broken_conn
    rw [h]
    simp

/-- Witness for C8 at a concrete timed-out read and timed-out write. -/
theorem C8_timeout_preserves_connection_witness :
    connSock._is_connected = true
    ∧ (recv_raw_text connSock RecvResult.timeout []).res
        = some (Except.error PyErr.socketTimeout)
    ∧ (recv_raw_text connSock RecvResult.timeout []).sock._is_connected = true
    ∧ (send_raw_text connSock "A".data [SendResult.timeout]).res
        = some (Except.error PyErr.socketTimeout)
    ∧ (send_raw_text connSock "A".data [SendResult.timeout]).sock._is_connected
        = connSock._is_connected :=
  ⟨rfl, (C8_timeout_preserves_connection.1 connSock [] rfl).1,
    (C8_timeout_preserves_connection.1 connSock [] rfl).2,
    by decide,
    C8_timeout_preserves_connection.2.1 connSock "A".data [SendResult.timeout] (by decide)⟩

/-- Claim C9: `disconnect` may be called from any state and never raises;
it clears the connection flag before the shutdown attempt, the close step
runs last on every path, and a shutdown failure is only recorded as a
warning trace. -/
theorem C9_disconnect_total :
    ∀ (s : IrcSocket) (o : ShutdownResult),
      (disconnect s o).res = Except.ok ()
      ∧ (disconnect s o).sock._is_connected = false
      ∧ (disconnect s o).trace.take 2 = [DiscEvent.setUnconnected, DiscEvent.shutdownAttempt]
      ∧ (disconnect s o).trace.getLast? = some DiscEvent.closeCall
      ∧ (disconnect s ShutdownResult.sockError).trace
        = [DiscEvent.setUnconnected, DiscEvent.shutdownAttempt, DiscEvent.shutdownWarn,
          DiscEvent.closeCall] := by
  intro s o
  cases o <;> exact ⟨rfl, rfl, rfl, rfl, rfl⟩

/-- Claim C10: a received line that begins with `PING` but has no
whitespace-delimited argument makes `recv_raw_text` fail with the builtin
`IndexError` from `line.split()[1]` — an error outside the five documented
error kinds — instead of returning the lines. -/
theorem C10_ping_without_argument_indexerror :
    (∀ (s : IrcSocket) (bytes : List Nat) (text l : List Char) (po : List (List SendResult)),
      s._is_connected = true → bytes ≠ [] → utf8Decode bytes = some text →
      splitCRLF (stripTrailingCRLF text) = [l] →
      startsWith PING l = true →
      (splitWs l).length < 2 →
      (recv_raw_text s (RecvResult.data bytes) po).res = some (Except.error PyErr.indexError))
    ∧ (recv_raw_text connSock (RecvResult.data (utf8Encode ("PING" ++ "\r\n").data)) []).res
        = some (Except.error PyErr.indexError)
    ∧ (recv_raw_text connSock (RecvResult.data (utf8Encode ("PING " ++ "\r\n").data)) []).res
        = some (Except.error PyErr.indexError)
    ∧ isTaxonomyErr PyErr.indexError = false := by
  refine ⟨?_, by decide, by decide, rfl⟩
  intro s bytes text l po hconn hb hdec hlines hst hlen
  have hpl : pingLoop (_set_timeout s RECV_TIMEOUT).1 [l] po
      = some ⟨Except.error PyErr.indexError, (_set_timeout s RECV_TIMEOUT).1, [], []⟩ := by
    cases hsp : splitWs l with
    | nil => simp [pingLoop, hst, hsp]
    | cons a tl =>
      cases tl with
      | nil => simp [pingLoop, hst, hsp]
      | cons b2 tl2 =>
        rw [hsp] at hlen
        simp only [List.length_cons] at hlen
        omega
  unfold recv_raw_text
  simp [hconn, hb, hdec, hlines, hpl]

/-- Witness for C10's general part at the bare `"PING\r\n"` read. -/
theorem C10_ping_without_argument_indexerror_witness :
    connSock._is_connected = true
    ∧ utf8Encode ("PING" ++ "\r\n").data ≠ []
    ∧ utf8Decode (utf8Encode ("PING" ++ "\r\n").data) = some ("PING" ++ "\r\n").data
    ∧ splitCRLF (stripTrailingCRLF ("PING" ++ "\r\n").data) = ["PING".data]
    ∧ startsWith PING "PING".data = true
    ∧ (splitWs "PING".data).length < 2
    ∧ (recv_raw_text connSock (RecvResult.data (utf8Encode ("PING" ++ "\r\n").data)) []).res
        = some (Except.error PyErr.indexError) :=
  ⟨rfl, by decide, by decide, by decide, by decide, by decide,
    C10_ping_without_argument_indexerror.1 connSock (utf8Encode ("PING" ++ "\r\n").data)
      ("PING" ++ "\r\n").data "PING".data []
      rfl (by decide) (by decide) (by decide) (by decide) (by decide)⟩

end Irc
